import Mathlib

/-!
A shallow embedding of `django_ninja_ts/management/commands/runserver.py`:
the change-gated TypeScript-client generator hooked into Django's
`runserver` command.  Python values appearing in OpenAPI schema
dictionaries are modelled by `Json`; the filesystem, the Django settings
and the outcomes of external calls (module import, `subprocess.run`,
file creation) are modelled by explicit state and oracle records, and
each method of the command becomes a pure state-passing function.
Machine-level details: `json.dumps` is modelled character by character
(default separators, `ensure_ascii=True`, optional `sort_keys`), and
`hashlib.sha256(...).hexdigest()` is modelled by a full SHA-256
implementation over the UTF-8 bytes of the serialized text.
-/

namespace NinjaTs

/-- A Python value that can appear in an OpenAPI schema dictionary.
`foreign` stands for a Python object of a non-JSON-serializable type
(`json.dumps` raises `TypeError` on it); the tag only distinguishes
objects.  Numbers are modelled by integers (the schemas the command
deals in carry strings and mappings; floats are out of scope). -/
inductive Json where
  | null
  | bool (b : Bool)
  | num (n : Int)
  | str (s : String)
  | arr (xs : List Json)
  | obj (kvs : List (String × Json))
  | foreign (tag : Nat)
deriving Repr

/-- Fixed-width lowercase hexadecimal rendering of `n` (`k` digits,
most significant first), as used by `hexdigest()` and `\uXXXX` escapes. -/
def hexDigitChar (n : Nat) : Char :=
  "0123456789abcdef".data.getD n '0'

def hexFixed : Nat → Nat → List Char
  | 0, _ => []
  | k + 1, n => hexFixed k (n / 16) ++ [hexDigitChar (n % 16)]

/-- The JSON escape of one character, following CPython's
`json.encoder.py_encode_basestring_ascii` (`ensure_ascii=True`):
the two-character escapes for `"`/`\\`/control characters that have
short forms, `\uXXXX` (with a surrogate pair above `0xFFFF`) for other
characters outside `0x20..0x7e`, and the character itself otherwise. -/
def escChar (c : Char) : List Char :=
  if c = '"' then ['\\', '"']
  else if c = '\\' then ['\\', '\\']
  else if c = '\n' then ['\\', 'n']
  else if c = '\t' then ['\\', 't']
  else if c = '\r' then ['\\', 'r']
  else if c.toNat = 8 then ['\\', 'b']
  else if c.toNat = 12 then ['\\', 'f']
  else if c.toNat < 0x20 ∨ c.toNat > 0x7e then
    if c.toNat < 0x10000 then
      '\\' :: 'u' :: hexFixed 4 c.toNat
    else
      let v := c.toNat - 0x10000
      ('\\' :: 'u' :: hexFixed 4 (0xd800 + v / 0x400)) ++
        ('\\' :: 'u' :: hexFixed 4 (0xdc00 + v % 0x400))
  else [c]

/-- JSON string literal: quotes around the escaped characters. -/
def escString (s : String) : List Char :=
  '"' :: s.data.flatMap escChar ++ ['"']

/-- Decimal rendering of Python `int` (as `json.dumps` emits it). -/
def intChars (n : Int) : List Char :=
  if n < 0 then '-' :: (Nat.repr n.natAbs).data else (Nat.repr n.natAbs).data

/-- Lexicographic (code-point) order on strings: the order Python's
`sorted` uses on `str` keys when `json.dumps(..., sort_keys=True)`
sorts a dictionary's items. -/
def strLeB (a b : String) : Bool :=
  go a.data b.data
where
  go : List Char → List Char → Bool
    | [], _ => true
    | _ :: _, [] => false
    | x :: xs, y :: ys =>
      if x.toNat < y.toNat then true
      else if y.toNat < x.toNat then false
      else go xs ys

/-- The key order used by `sort_keys=True`: compare items by their key. -/
def keyLe (p q : String × Json) : Prop := strLeB p.1 q.1 = true

instance : DecidableRel keyLe :=
  fun p q => inferInstanceAs (Decidable (strLeB p.1 q.1 = true))

/-- The same key order on already-rendered items `(key, rendered value)`. -/
def pairLe (p q : String × List Char) : Prop := strLeB p.1 q.1 = true

instance : DecidableRel pairLe :=
  fun p q => inferInstanceAs (Decidable (strLeB p.1 q.1 = true))

/-- One rendered dictionary item, `"key": value`. -/
def renderItem (p : String × List Char) : List Char :=
  escString p.1 ++ ':' :: ' ' :: p.2

/-- Interleave `", "` (the default item separator) between rendered items. -/
def joinComma : List (List Char) → List Char
  | [] => []
  | [x] => x
  | x :: y :: rest => x ++ ',' :: ' ' :: joinComma (y :: rest)

mutual
/-- `json.dumps` on one Python value, as a character list: `none` models
the `TypeError` raised on a non-serializable object.  `sk` is
`sort_keys`: when true, a dictionary's items are rendered in key-sorted
order (CPython sorts `dct.items()` and then renders; since the key
comparison ignores the values, sorting the items after rendering each
value produces the same text, and that is how it is written here). -/
def serJ (sk : Bool) : Json → Option (List Char)
  | .null => some "null".data
  | .bool true => some "true".data
  | .bool false => some "false".data
  | .num n => some (intChars n)
  | .str s => some (escString s)
  | .arr xs =>
    match serArr sk xs with
    | none => none
    | some parts => some ('[' :: joinComma parts ++ [']'])
  | .obj kvs =>
    match serPairs sk kvs with
    | none => none
    | some ps =>
      let ps' := if sk then List.insertionSort pairLe ps else ps
      some ('{' :: joinComma (ps'.map renderItem) ++ ['}'])
  | .foreign _ => none

/-- Render the elements of a JSON array in order; fail on the first
non-serializable element. -/
def serArr (sk : Bool) : List Json → Option (List (List Char))
  | [] => some []
  | x :: xs =>
    match serJ sk x, serArr sk xs with
    | some c, some cs => some (c :: cs)
    | _, _ => none

/-- Render the values of a dictionary's items in list order, keeping
each key with its rendered value. -/
def serPairs (sk : Bool) :
    List (String × Json) → Option (List (String × List Char))
  | [] => some []
  | (k, v) :: rest =>
    match serJ sk v, serPairs sk rest with
    | some c, some cs => some ((k, c) :: cs)
    | _, _ => none
end

/-- `json.dumps(d, sort_keys := sk)` on a Python dict `d`, as a string. -/
def dumps (sk : Bool) (d : List (String × Json)) : Option String :=
  (serJ sk (.obj d)).map fun cs => ⟨cs⟩

/-- UTF-8 encoding of one character (`str.encode("utf-8")`). -/
def charUtf8 (c : Char) : List Nat :=
  let v := c.toNat
  if v < 0x80 then [v]
  else if v < 0x800 then [0xc0 + v / 0x40, 0x80 + v % 0x40]
  else if v < 0x10000 then
    [0xe0 + v / 0x1000, 0x80 + v / 0x40 % 0x40, 0x80 + v % 0x40]
  else
    [0xf0 + v / 0x40000, 0x80 + v / 0x1000 % 0x40,
     0x80 + v / 0x40 % 0x40, 0x80 + v % 0x40]

/-- UTF-8 encoding of a string, as a byte list. -/
def utf8Bytes (s : String) : List Nat :=
  s.data.flatMap charUtf8

/-! ### SHA-256 (FIPS 180-4), on byte lists, words as `Nat` mod `2^32` -/

def M32 : Nat := 4294967296

def rotr (n x : Nat) : Nat :=
  (x / 2 ^ n + x * 2 ^ (32 - n)) % M32

def shr (n x : Nat) : Nat := x / 2 ^ n

def bigSigma0 (x : Nat) : Nat := rotr 2 x ^^^ rotr 13 x ^^^ rotr 22 x
def bigSigma1 (x : Nat) : Nat := rotr 6 x ^^^ rotr 11 x ^^^ rotr 25 x
def smallSigma0 (x : Nat) : Nat := rotr 7 x ^^^ rotr 18 x ^^^ shr 3 x
def smallSigma1 (x : Nat) : Nat := rotr 17 x ^^^ rotr 19 x ^^^ shr 10 x

def chF (x y z : Nat) : Nat := (x &&& y) ^^^ ((x ^^^ 4294967295) &&& z)
def majF (x y z : Nat) : Nat := (x &&& y) ^^^ (x &&& z) ^^^ (y &&& z)

/-- The 64 SHA-256 round constants, packed big-endian into one integer
(word `i` occupies bits `32*(63-i)` and up); the decimal literal unpacks
to the FIPS 180-4 table `428a2f98 71374491 b5c0fbcf ...`. -/
def kPacked : Nat :=
  8399870144517823301722239222130927227141849779511242471197906795369846673996008864786532278482947930035050432913372875699354429524650716672308175015812472005008943341011247634627600705591103756174659437448007297240981034636327441933849465611186184660803773840414514428031635770391245199770927811112653141372483794982516161135727373084047811483050876080270389320947077305721183235613169389468744126235534648516788175255292025668825020963291224099932572215580391753777671218957634024159536228058522778003881673030597872562207069818177476920296259993961459554031943090626293016819766823808480230688357231269177224952050

/-- The 64 round constants, unpacked from `kPacked`. -/
def kConst : List Nat :=
  (List.range 64).map fun i => kPacked / 2 ^ (32 * (63 - i)) % 2 ^ 32

/-- Working state of the compression function. -/
structure H8 where
  a : Nat
  b : Nat
  c : Nat
  d : Nat
  e : Nat
  f : Nat
  g : Nat
  h : Nat
deriving Repr, DecidableEq

def h8Init : H8 :=
  ⟨0x6a09e667, 0xbb67ae85, 0x3c6ef372, 0xa54ff53a,
   0x510e527f, 0x9b05688c, 0x1f83d9ab, 0x5be0cd19⟩

/-- Extend a 16-word block to the 64-word message schedule
(`k` more words to produce). -/
def extendW : Nat → List Nat → List Nat
  | 0, ws => ws
  | k + 1, ws =>
    let i := ws.length
    let nw := (smallSigma1 (ws.getD (i - 2) 0) + ws.getD (i - 7) 0 +
               smallSigma0 (ws.getD (i - 15) 0) + ws.getD (i - 16) 0) % M32
    extendW k (ws ++ [nw])

/-- One round of the SHA-256 compression function. -/
def round1 (s : H8) (kw : Nat × Nat) : H8 :=
  let t1 := (s.h + bigSigma1 s.e + chF s.e s.f s.g + kw.1 + kw.2) % M32
  let t2 := (bigSigma0 s.a + majF s.a s.b s.c) % M32
  ⟨(t1 + t2) % M32, s.a, s.b, s.c, (s.d + t1) % M32, s.e, s.f, s.g⟩

/-- Compress one 64-byte block (given as 16 words) into the running hash. -/
def compress (h0 : H8) (block : List Nat) : H8 :=
  let w := extendW 48 block
  let s := (kConst.zip w).foldl (fun s kw => round1 s (kw.2, kw.1)) h0
  ⟨(h0.a + s.a) % M32, (h0.b + s.b) % M32, (h0.c + s.c) % M32,
   (h0.d + s.d) % M32, (h0.e + s.e) % M32, (h0.f + s.f) % M32,
   (h0.g + s.g) % M32, (h0.h + s.h) % M32⟩

/-- SHA-256 padding: `0x80`, zeros to 56 mod 64, 8-byte big-endian bit
length. -/
def padBytes (msg : List Nat) : List Nat :=
  let n := msg.length
  let zeros := (119 - n % 64) % 64
  let lenBytes := (List.range 8).map fun i => 8 * n / 2 ^ (8 * (7 - i)) % 256
  msg ++ 128 :: List.replicate zeros 0 ++ lenBytes

/-- Group a byte list into 32-bit big-endian words. -/
def bytesToWords : List Nat → List Nat
  | b0 :: b1 :: b2 :: b3 :: rest =>
    (b0 % 256 * 16777216 + b1 % 256 * 65536 + b2 % 256 * 256 + b3 % 256)
      :: bytesToWords rest
  | _ => []

/-- Split a word list into 16-word blocks. -/
def toBlocks (ws : List Nat) : List (List Nat) :=
  if h : ws = [] then []
  else
    have hlt : (ws.drop 16).length < ws.length := by
      cases ws with
      | nil => exact absurd rfl h
      | cons a l => simpa using Nat.lt_succ_of_le (Nat.sub_le _ _)
    ws.take 16 :: toBlocks (ws.drop 16)
termination_by ws.length

/-- The eight hash words of the SHA-256 digest of a byte list. -/
def sha256H (msg : List Nat) : H8 :=
  (toBlocks (bytesToWords (padBytes msg))).foldl compress h8Init

/-- The digest as a single natural number below `2^256`
(big-endian concatenation of the eight words). -/
def sha256Nat (msg : List Nat) : Nat :=
  let s := sha256H msg
  [s.b, s.c, s.d, s.e, s.f, s.g, s.h].foldl
    (fun acc w => acc * M32 + w % M32) (s.a % M32)

/-- `hashlib.sha256(text.encode("utf-8")).hexdigest()`: 64 lowercase hex
digits of the 256-bit digest. -/
def sha256Hex (text : String) : String :=
  ⟨hexFixed 64 (sha256Nat (utf8Bytes text))⟩

/-! ### Python strings and paths -/

/-- ASCII whitespace, as stripped by `str.strip()` (the Unicode extras
never occur in the digests and markers at hand). -/
def pyIsSpace (c : Char) : Bool :=
  c = ' ' || c = '\t' || c = '\n' || c = '\r' || c.toNat = 11 || c.toNat = 12

/-- `str.strip()`: drop leading and trailing whitespace. -/
def pyStrip (s : String) : String :=
  ⟨((s.data.dropWhile pyIsSpace).reverse.dropWhile pyIsSpace).reverse⟩

/-- `os.path.dirname` (POSIX): everything up to the final slash, with
trailing slashes stripped from the head unless it consists of slashes. -/
def pyDirname (p : String) : String :=
  let head := (p.data.reverse.dropWhile (· ≠ '/')).reverse
  if head.all (· = '/') then ⟨head⟩
  else ⟨(head.reverse.dropWhile (· = '/')).reverse⟩

/-! ### Exceptions and external-world oracles -/

/-- The Python exception classes that can arise inside
`_generate_client` and `_run_generator`.  The constructors are mutually
exclusive classes for the purpose of `except` matching; in particular
`importError` is an `ImportError` that is *not* a `ModuleNotFoundError`,
and `calledProcessError`/`timeoutExpired` are `subprocess` errors that
are neither `OSError` nor `TypeError`. -/
inductive PyExc where
  | moduleNotFoundError (msg : String)
  | importError (msg : String)
  | attributeError (msg : String)
  | schemaValidationError (msg : String)
  | typeError (msg : String)
  | osError (msg : String)
  | calledProcessError (stderr : String)
  | timeoutExpired
deriving DecidableEq, Repr

/-- What happens when the configured dotted path is resolved. -/
inductive ImportBehavior where
  | resolved
  | moduleMissing (msg : String)
  | attrMissing (modPath attr : String)
deriving DecidableEq, Repr

/-- `django.utils.module_loading.import_string(dotted_path)`: a missing
module raises `ModuleNotFoundError`; a module that does not define the
final attribute raises plain `ImportError` (Django catches the
underlying `AttributeError` and re-raises it as `ImportError`). -/
def importString : ImportBehavior → Except PyExc Unit
  | .resolved => .ok ()
  | .moduleMissing m => .error (.moduleNotFoundError m)
  | .attrMissing modPath attr =>
    .error (.importError
      ("Module \"" ++ modPath ++ "\" does not define a \"" ++ attr ++
        "\" attribute/class"))

/-- The outcome of `subprocess.run(cmd, check=True, timeout=120, ...)`. -/
inductive RunOutcome where
  | exit0
  | exitNonzero (stderr : String)
  | timedOut
  | execFail
deriving DecidableEq, Repr

/-- Oracle for one invocation: what the settings-independent external
world does at each call site.  `osText` is the message of the `OSError`
raised by whichever filesystem call fails first (at most one does,
since the first failure aborts the invocation). -/
structure Env where
  importBehavior : ImportBehavior
  hasAccessor : Bool
  schema : List (String × Json)
  markerReadOk : Bool
  parentExists : Bool
  parentWritable : Bool
  tmpCreateOk : Bool
  tmpWriteOk : Bool
  tmpName : String
  runOutcome : RunOutcome
  makedirsOk : Bool
  markerOpenOk : Bool
  markerWriteOk : Bool
  osText : String
deriving Repr

/-- The observable on-disk and process state: the content of the digest
marker file at `<output_dir>/.schema.hash` (`none` = the file does not
exist), whether this invocation's temporary input file currently exists,
whether one was ever created, the text written into it, and the log of
spawned generator command lines. -/
structure St where
  marker : Option String
  tmpExists : Bool
  tmpEverCreated : Bool
  tmpContent : Option String
  spawned : List (List String)
deriving DecidableEq, Repr

/-- The settings the command reads (`getattr(settings, ..., default)`):
`NINJA_TS_API`, `NINJA_TS_OUTPUT_DIR`, `NINJA_TS_CMD_ARGS`. -/
structure Cfg where
  api : Option String
  outputDir : Option String
  cmdArgs : Option (List String)
deriving DecidableEq, Repr

/-- Python truthiness of an optional string setting
(`None` and `""` are falsy). -/
def truthy : Option String → Bool
  | none => false
  | some s => !s.isEmpty

/-- The default for `NINJA_TS_CMD_ARGS`. -/
def defaultCmdArgs : List String :=
  ["generate", "-g", "typescript-angular", "-p", "removeOperationIdPrefix=true"]

/-- `GENERATOR_TIMEOUT`, in seconds. -/
def genTimeout : Nat := 120

/-! ### `_validate_schema` and `_is_schema_changed` -/

/-- Dictionary key lookup (`key in d` / `d.get(key)`). -/
def lookupKey (kvs : List (String × Json)) (k : String) : Option Json :=
  (kvs.find? fun kv => kv.1 == k).map (·.2)

def requiredFields : List String := ["openapi", "info", "paths"]

/-- The required top-level fields absent from the schema, in the order
the code checks them. -/
def missingFields (schema : List (String × Json)) : List String :=
  requiredFields.filter fun f => (lookupKey schema f).isNone

/-- `", ".join(parts)`. -/
def commaJoin : List String → String
  | [] => ""
  | [x] => x
  | x :: y :: rest => x ++ ", " ++ commaJoin (y :: rest)

/-- The `SchemaValidationError` message for missing top-level fields. -/
def missingMsg (fields : List String) : String :=
  "Invalid OpenAPI schema: missing required fields: " ++ commaJoin fields

/-- The `SchemaValidationError` message for a malformed `info`. -/
def titleMsg : String :=
  "Invalid OpenAPI schema: \x27info\x27 must contain \x27title\x27"

/-- `schema.get("info", \x7b\x7d)` is a dict containing the key
`"title"`. -/
def infoHasTitle (schema : List (String × Json)) : Bool :=
  match (lookupKey schema "info").getD (.obj []) with
  | .obj kvs => (lookupKey kvs "title").isSome
  | _ => false

/-- `Command._validate_schema`: raise `SchemaValidationError` naming the
missing required top-level fields, or complaining about `info`/`title`;
return `()` on a well-shaped schema. -/
def validateSchema (schema : List (String × Json)) : Except PyExc Unit :=
  match missingFields schema with
  | [] =>
    if infoHasTitle schema then .ok ()
    else .error (.schemaValidationError titleMsg)
  | fs => .error (.schemaValidationError (missingMsg fs))

/-- `Command._is_schema_changed(new_hash, hash_file)`: `marker` is the
content of the hash file if it exists, `readOk` whether opening and
reading it succeeds (an `OSError` there is swallowed and counts as
changed). -/
def isSchemaChanged (newHash : String) (marker : Option String)
    (readOk : Bool) : Bool :=
  match marker with
  | none => true
  | some content => if readOk then pyStrip content != newHash else true

/-! ### `_run_generator` -/

/-- What `_run_generator` leaves behind: the final state, an exception
propagating out of the method (`none` when it returns normally), the
error message it reported itself, and whether it reached the success
message. -/
structure RunResult where
  st : St
  exc : Option PyExc
  reported : Option String
  success : Bool
deriving DecidableEq, Repr

/-- The report for a `CalledProcessError`: stderr is decoded and
truncated to 500 characters. -/
def cpeReport (stderr : String) : String :=
  if stderr.isEmpty then "Client generation failed."
  else "Client generation failed." ++ " Error: " ++ stderr.take 500

def timeoutReport : String :=
  "Client generation timed out after " ++ toString genTimeout ++ " seconds."

def fsReport (m : String) : String :=
  "File system error during generation: " ++ m

/-- `Command._run_generator(schema_dict, output_dir, hash_file,
new_hash)`, step by step: the writability pre-check on the parent of the
output directory; `tempfile.NamedTemporaryFile(delete=False)` creating
the temporary file; `json.dump(schema_dict, tmp)` writing the schema
(only after which `tmp_path = tmp.name` is assigned); the
`subprocess.run` call on the assembled command line;
`os.makedirs(output_dir, exist_ok=True)`; `open(hash_file, "w")` (which
creates or truncates the marker) followed by `f.write(new_hash)`.  The
`except` clauses catch `CalledProcessError`, `TimeoutExpired` and
`OSError`; the `finally` clause removes the temporary file only when
`tmp_path` was assigned.  Paths are modelled abstractly
(`os.path.abspath` is dropped; the marker file is the `marker` slot of
the state). -/
def runGenerator (env : Env) (cmdArgs : List String) (outputDir : String)
    (schema : List (String × Json)) (newHash : String) (st : St) :
    RunResult :=
  let parentDir :=
    if (pyDirname outputDir).isEmpty then "." else pyDirname outputDir
  let body : St × Bool × Except PyExc Unit :=
    if env.parentExists && !env.parentWritable then
      (st, false, .error (.osError
        ("Output directory parent is not writable: " ++ parentDir)))
    else if !env.tmpCreateOk then
      (st, false, .error (.osError env.osText))
    else
      let st1 := { st with tmpExists := true, tmpEverCreated := true }
      match serJ false (.obj schema) with
      | none =>
        (st1, false, .error
          (.typeError "Object of type object is not JSON serializable"))
      | some text =>
        if !env.tmpWriteOk then
          (st1, false, .error (.osError env.osText))
        else
          let st2 := { st1 with tmpContent := some (⟨text⟩ : String) }
          let cmd := ["npx", "openapi-generator-cli"] ++ cmdArgs ++
            ["-o", outputDir, "-i", env.tmpName]
          let st3 := { st2 with spawned := st2.spawned ++ [cmd] }
          match env.runOutcome with
          | .exitNonzero stderr =>
            (st3, true, .error (.calledProcessError stderr))
          | .timedOut => (st3, true, .error .timeoutExpired)
          | .execFail => (st3, true, .error (.osError env.osText))
          | .exit0 =>
            if !env.makedirsOk then
              (st3, true, .error (.osError env.osText))
            else if !env.markerOpenOk then
              (st3, true, .error (.osError env.osText))
            else
              let st4 := { st3 with marker := some "" }
              if !env.markerWriteOk then
                (st4, true, .error (.osError env.osText))
              else
                ({ st4 with marker := some newHash }, true, .ok ())
  let stB := body.1
  let tmpVar := body.2.1
  let handled : Option String × Option PyExc × Bool :=
    match body.2.2 with
    | .ok () => (none, none, true)
    | .error (.calledProcessError stderr) => (some (cpeReport stderr), none, false)
    | .error .timeoutExpired => (some timeoutReport, none, false)
    | .error (.osError m) => (some (fsReport m), none, false)
    | .error e => (none, some e, false)
  let stF :=
    if tmpVar && stB.tmpExists then { stB with tmpExists := false } else stB
  { st := stF, exc := handled.2.1, reported := handled.1,
    success := handled.2.2 }

/-! ### `_generate_client` -/

/-- How one invocation of `_generate_client` ends. -/
inductive Outcome where
  | skippedNotConfigured
  | skippedUnchanged
  | generated
  | generatorError (msg : String)
  | caught (msg : String)
  | uncaught (e : PyExc)
deriving DecidableEq, Repr

/-- The message of the `AttributeError` raised when the resolved API
object has no `get_openapi_schema`. -/
def accessorMsg (apiPath : String) : String :=
  "API object at \x27" ++ apiPath ++
    "\x27 does not have \x27get_openapi_schema\x27 method. " ++
    "Ensure NINJA_TS_API points to a valid NinjaAPI instance."

/-- The `TypeError` message re-raised when `json.dumps` fails. -/
def serFailMsg : String :=
  "Failed to serialize OpenAPI schema to JSON: " ++
    "Object of type object is not JSON serializable. " ++
    "Ensure the schema contains only JSON-serializable types."

/-- The `except` clauses at the top of `_generate_client`, in source
order: `ModuleNotFoundError`, `AttributeError`, `SchemaValidationError`,
`TypeError`, `OSError`, each turned into a one-line diagnostic.  Any
other exception class matches none of them and propagates out of the
method. -/
def handleTop : PyExc → Outcome
  | .moduleNotFoundError m =>
    .caught ("Module not found: " ++ m ++
      ". Check that NINJA_TS_API path is correct.")
  | .attributeError m => .caught m
  | .schemaValidationError m => .caught m
  | .typeError m => .caught m
  | .osError m => .caught ("File system error: " ++ m)
  | e => .uncaught e

/-- `Command._generate_client()`: skip when `NINJA_TS_API` or
`NINJA_TS_OUTPUT_DIR` is unset (or empty); otherwise resolve the API
object, check it has `get_openapi_schema`, fetch and validate the
schema, hash its key-sorted JSON serialization with SHA-256, compare
against the stored marker, and run the generator when they differ.
Exceptions raised along the way are handled by `handleTop`. -/
def generateClient (env : Env) (cfg : Cfg) (st : St) : St × Outcome :=
  if !(truthy cfg.api) || !(truthy cfg.outputDir) then
    (st, .skippedNotConfigured)
  else
    let apiPath := cfg.api.getD ""
    let outputDir := cfg.outputDir.getD ""
    match importString env.importBehavior with
    | .error e => (st, handleTop e)
    | .ok () =>
      if !env.hasAccessor then
        (st, handleTop (.attributeError (accessorMsg apiPath)))
      else
        match validateSchema env.schema with
        | .error e => (st, handleTop e)
        | .ok () =>
          match dumps true env.schema with
          | none => (st, handleTop (.typeError serFailMsg))
          | some canon =>
            let newHash := sha256Hex canon
            if isSchemaChanged newHash st.marker env.markerReadOk then
              let r := runGenerator env (cfg.cmdArgs.getD defaultCmdArgs)
                outputDir env.schema newHash st
              match r.exc with
              | some e => (r.st, handleTop e)
              | none =>
                (r.st,
                 if r.success then .generated
                 else .generatorError (r.reported.getD ""))
            else (st, .skippedUnchanged)

/-! ### Concrete sample data (used in witnesses and counterexamples) -/

/-- The spec's example schema,
`\x7b"openapi": "3.0.0", "info": \x7b"title": "T", "version": "1"\x7d,
"paths": \x7b\x7d\x7d`. -/
def sampleSchema : List (String × Json) :=
  [("openapi", .str "3.0.0"),
   ("info", .obj [("title", .str "T"), ("version", .str "1")]),
   ("paths", .obj [])]

/-- Its `json.dumps(..., sort_keys=True)` text. -/
def sampleCanon : String :=
  "\x7b\"info\": \x7b\"title\": \"T\", \"version\": \"1\"\x7d, \"openapi\": \"3.0.0\", \"paths\": \x7b\x7d\x7d"

/-- Its `json.dumps(...)` text in insertion order. -/
def sampleTemp : String :=
  "\x7b\"openapi\": \"3.0.0\", \"info\": \x7b\"title\": \"T\", \"version\": \"1\"\x7d, \"paths\": \x7b\x7d\x7d"

/-- A configured settings record. -/
def sampleCfg : Cfg :=
  { api := some "myapp.api", outputDir := some "/tmp/out", cmdArgs := none }

/-- A fresh state: no marker file, no temp file, nothing spawned. -/
def initialSt : St :=
  { marker := none, tmpExists := false, tmpEverCreated := false,
    tmpContent := none, spawned := [] }

/-- An environment in which everything succeeds. -/
def okEnv : Env :=
  { importBehavior := .resolved, hasAccessor := true, schema := sampleSchema,
    markerReadOk := true, parentExists := true, parentWritable := true,
    tmpCreateOk := true, tmpWriteOk := true, tmpName := "/tmp/t.json",
    runOutcome := .exit0, makedirsOk := true, markerOpenOk := true,
    markerWriteOk := true, osText := "disk full" }

/-- The command line spawned for `sampleCfg`/`okEnv`. -/
def sampleCmd : List String :=
  ["npx", "openapi-generator-cli", "generate", "-g", "typescript-angular",
   "-p", "removeOperationIdPrefix=true", "-o", "/tmp/out", "-i", "/tmp/t.json"]

mutual
/-- Recursively key-sort every dictionary inside a value — the value the
canonical (key-sorted) serialization denotes. -/
def deepSort : Json → Json
  | .null => .null
  | .bool b => .bool b
  | .num n => .num n
  | .str s => .str s
  | .foreign t => .foreign t
  | .arr xs => .arr (deepSortArr xs)
  | .obj kvs => .obj (List.insertionSort keyLe (deepSortKVs kvs))

def deepSortArr : List Json → List Json
  | [] => []
  | x :: xs => deepSort x :: deepSortArr xs

def deepSortKVs : List (String × Json) → List (String × Json)
  | [] => []
  | (k, v) :: rest => (k, deepSort v) :: deepSortKVs rest
end

mutual
/-- "Denotes the same JSON value" (Python `==` on parsed documents):
scalars must be equal, arrays elementwise equivalent in order, and
dictionaries equal up to a permutation of their items with equivalent
values. -/
inductive JEquiv : Json → Json → Prop where
  | null : JEquiv .null .null
  | bool (b : Bool) : JEquiv (.bool b) (.bool b)
  | num (n : Int) : JEquiv (.num n) (.num n)
  | str (s : String) : JEquiv (.str s) (.str s)
  | foreign (t : Nat) : JEquiv (.foreign t) (.foreign t)
  | arr {xs ys : List Json} : JEquivL xs ys → JEquiv (.arr xs) (.arr ys)
  | obj {kvs mid kvs2 : List (String × Json)} :
      JEquivKV kvs mid → mid.Perm kvs2 → JEquiv (.obj kvs) (.obj kvs2)

/-- Elementwise `JEquiv` on lists. -/
inductive JEquivL : List Json → List Json → Prop where
  | nil : JEquivL [] []
  | cons {x y : Json} {xs ys : List Json} :
      JEquiv x y → JEquivL xs ys → JEquivL (x :: xs) (y :: ys)

/-- Itemwise `JEquiv` on dictionary items (same keys in order,
equivalent values). -/
inductive JEquivKV :
    List (String × Json) → List (String × Json) → Prop where
  | nil : JEquivKV [] []
  | cons {k : String} {v w : Json} {kvs ws : List (String × Json)} :
      JEquiv v w → JEquivKV kvs ws → JEquivKV ((k, v) :: kvs) ((k, w) :: ws)
end

/-- A two-key dictionary whose insertion order is not the sorted order:
its two serializations differ as texts. -/
def cexOrd : List (String × Json) :=
  [("b", .num 1), ("a", .num 2)]

/-- A family of schema dictionaries with pairwise distinct canonical
serializations: `\x7b"a": "aa...a"\x7d` with `n` copies of `a`. -/
def famN (n : Nat) : List (String × Json) :=
  [("a", .str ⟨List.replicate n 'a'⟩)]

/-- The canonical serialization of `famN n` (shown below to be what
`dumps true` produces). -/
def cText (n : Nat) : String :=
  ⟨'{' :: '"' :: 'a' :: '"' :: ':' :: ' ' :: '"' ::
    (List.replicate n 'a' ++ ['"', '}'])⟩

/-! ### Lemmas about stripping and hex digits -/

theorem dropWhile_eq_self {p : Char → Bool} {l : List Char}
    (h : ∀ c ∈ l, p c = false) : l.dropWhile p = l := by
  cases l with
  | nil => rfl
  | cons a l => simp [List.dropWhile_cons, h a (List.mem_cons_self a l)]

theorem pyStrip_eq_self {s : String}
    (h : ∀ c ∈ s.data, pyIsSpace c = false) : pyStrip s = s := by
  have h2 : ∀ c ∈ s.data.reverse, pyIsSpace c = false := by
    intro c hc
    exact h c (List.mem_reverse.mp hc)
  unfold pyStrip
  rw [dropWhile_eq_self h, dropWhile_eq_self h2, List.reverse_reverse]

theorem hexDigitChar_not_space (n : Nat) :
    pyIsSpace (hexDigitChar n) = false := by
  by_cases h : n < 16
  · interval_cases n <;> decide
  · have h16 : ("0123456789abcdef".data).length ≤ n := by
      have hl : ("0123456789abcdef".data).length = 16 := by decide
      omega
    unfold hexDigitChar
    rw [List.getD_eq_default _ _ h16]
    decide

theorem hexFixed_not_space :
    ∀ k n : Nat, ∀ c ∈ hexFixed k n, pyIsSpace c = false := by
  intro k
  induction k with
  | zero =>
    intro n c hc
    simp [hexFixed] at hc
  | succ k ih =>
    intro n c hc
    simp only [hexFixed, List.mem_append, List.mem_singleton] at hc
    rcases hc with hc | hc
    · exact ih _ c hc
    · subst hc
      exact hexDigitChar_not_space _

theorem pyStrip_sha256Hex (text : String) :
    pyStrip (sha256Hex text) = sha256Hex text := by
  apply pyStrip_eq_self
  intro c hc
  exact hexFixed_not_space 64 (sha256Nat (utf8Bytes text)) c hc

/-! ### Characterizations of `_run_generator` -/

/-- On the all-success path, `_run_generator` spawns exactly the
documented command line, removes the temporary file, and overwrites the
marker with the new digest. -/
theorem runGenerator_success_spec (env : Env) (args : List String)
    (dir : String) (schema : List (String × Json)) (hash : String) (st : St)
    (t : List Char) (hpw : env.parentWritable = true)
    (htc : env.tmpCreateOk = true) (htw : env.tmpWriteOk = true)
    (hser : serJ false (.obj schema) = some t) (hro : env.runOutcome = .exit0)
    (hmk : env.makedirsOk = true) (hmo : env.markerOpenOk = true)
    (hmw : env.markerWriteOk = true) :
    runGenerator env args dir schema hash st =
      { st := { marker := some hash, tmpExists := false,
                tmpEverCreated := true, tmpContent := some (⟨t⟩ : String),
                spawned := st.spawned ++ [["npx", "openapi-generator-cli"] ++
                  args ++ ["-o", dir, "-i", env.tmpName]] },
        exc := none, reported := none, success := true } := by
  unfold runGenerator
  simp [hpw, htc, htw, hser, hro, hmk, hmo, hmw]

/-- Any run of `_run_generator` either leaves the marker file alone,
or (full success, generator exited 0) writes the new digest, or
(generator exited 0 but writing the marker failed) leaves the marker
truncated to the empty string while returning normally with a
filesystem-error report. -/
theorem runGenerator_marker_cases (env : Env) (args : List String)
    (dir : String) (schema : List (String × Json)) (hash : String) (st : St) :
    (runGenerator env args dir schema hash st).st.marker = st.marker ∨
    ((runGenerator env args dir schema hash st).st.marker = some hash ∧
      (runGenerator env args dir schema hash st).exc = none ∧
      (runGenerator env args dir schema hash st).success = true ∧
      env.runOutcome = .exit0) ∨
    ((runGenerator env args dir schema hash st).st.marker = some "" ∧
      (runGenerator env args dir schema hash st).exc = none ∧
      (runGenerator env args dir schema hash st).success = false ∧
      (runGenerator env args dir schema hash st).reported =
        some (fsReport env.osText) ∧
      env.markerWriteOk = false ∧ env.runOutcome = .exit0) := by
  cases hpp : env.parentExists && !env.parentWritable with
  | true =>
    left
    simp [runGenerator, hpp]
  | false =>
  cases htc : env.tmpCreateOk with
  | false =>
    left
    simp [runGenerator, hpp, htc]
  | true =>
  cases hser : serJ false (.obj schema) with
  | none =>
    left
    simp [runGenerator, hpp, htc, hser]
  | some t =>
  cases htw : env.tmpWriteOk with
  | false =>
    left
    simp [runGenerator, hpp, htc, hser, htw]
  | true =>
  cases hro : env.runOutcome with
  | exitNonzero s =>
    left
    simp [runGenerator, hpp, htc, hser, htw, hro]
  | timedOut =>
    left
    simp [runGenerator, hpp, htc, hser, htw, hro]
  | execFail =>
    left
    simp [runGenerator, hpp, htc, hser, htw, hro]
  | exit0 =>
  cases hmk : env.makedirsOk with
  | false =>
    left
    simp [runGenerator, hpp, htc, hser, htw, hro, hmk]
  | true =>
  cases hmo : env.markerOpenOk with
  | false =>
    left
    simp [runGenerator, hpp, htc, hser, htw, hro, hmk, hmo]
  | true =>
  cases hmw : env.markerWriteOk with
  | false =>
    right
    right
    simp [runGenerator, hpp, htc, hser, htw, hro, hmk, hmo, hmw]
  | true =>
    right
    left
    simp [runGenerator, hpp, htc, hser, htw, hro, hmk, hmo, hmw]
/-! ### Claim C5 -/

/-- Claim C5: `_is_schema_changed(new_hash, hash_file)` returns true iff
the marker file is missing, or unreadable, or its whitespace-stripped
content differs from `new_hash`; and a marker holding the matching
digest surrounded by whitespace yields false (unchanged). -/
theorem isSchemaChanged_spec :
    ∀ (newHash : String) (marker : Option String) (readOk : Bool),
      (isSchemaChanged newHash marker readOk = true ↔
        marker = none ∨ readOk = false ∨
          ∃ content, marker = some content ∧ pyStrip content ≠ newHash) ∧
      isSchemaChanged "abc123" (some "  abc123  \n") true = false := by
  intro nh mk ro
  refine ⟨?_, by decide⟩
  cases mk with
  | none => simp [isSchemaChanged]
  | some c =>
    cases ro with
    | false => simp [isSchemaChanged]
    | true => simp [isSchemaChanged, bne_iff_ne]

/-! ### Claim C2 -/

/-- Claim C2 (refuted by the code): a locator that names an existing
module but a missing attribute makes `import_string` raise a plain
`ImportError`, which matches none of the `except` clauses of
`_generate_client` (`ModuleNotFoundError`, `AttributeError`,
`SchemaValidationError`, `TypeError`, `OSError`): the exception
propagates out of the method instead of being converted to a
diagnostic. -/
theorem generateClient_attrMissing_uncaught :
    generateClient
        { okEnv with importBehavior := .attrMissing "myapp.api" "api" }
        sampleCfg initialSt =
      (initialSt,
       .uncaught (.importError
         "Module \"myapp.api\" does not define a \"api\" attribute/class")) := by
  rfl

/-! ### Claim C3 -/

/-- Claim C3 counterexample: with a *nonexistent* parent of the output
directory (and everything else fine), `_run_generator` does not fail
before spawning anything — it creates the temporary file, spawns the
generator and completes successfully. -/
theorem runGenerator_missingParent_spawns :
    ((runGenerator { okEnv with parentExists := false } defaultCmdArgs
        "/tmp/out" sampleSchema "newhash" initialSt).success = true) ∧
    ((runGenerator { okEnv with parentExists := false } defaultCmdArgs
        "/tmp/out" sampleSchema "newhash" initialSt).st.spawned =
      [sampleCmd]) ∧
    ((runGenerator { okEnv with parentExists := false } defaultCmdArgs
        "/tmp/out" sampleSchema "newhash" initialSt).st.tmpEverCreated =
      true) := by
  decide

/-- Claim C3 (amended): only when the parent of the output directory
*exists and is not writable* does `_run_generator` fail with a
filesystem error before creating the temporary file or spawning any
process (the state is returned untouched); a nonexistent parent is not
rejected by the pre-flight check. -/
theorem runGenerator_unwritableParent_preflight :
    ∀ env args dir schema hash st,
      env.parentExists = true → env.parentWritable = false →
      runGenerator env args dir schema hash st =
        { st := st, exc := none,
          reported := some (fsReport
            ("Output directory parent is not writable: " ++
              (if (pyDirname dir).isEmpty then "." else pyDirname dir))),
          success := false } := by
  intro env args dir schema hash st hpe hpw
  unfold runGenerator
  simp [hpe, hpw]

/-- Witness for the amended claim C3, at a concrete unwritable parent. -/
theorem runGenerator_unwritableParent_preflight_witness :
    runGenerator { okEnv with parentWritable := false } defaultCmdArgs
        "/tmp/out" sampleSchema "h" initialSt =
      { st := initialSt, exc := none,
        reported := some
          "File system error during generation: Output directory parent is not writable: /tmp",
        success := false } :=
  runGenerator_unwritableParent_preflight
    { okEnv with parentWritable := false } defaultCmdArgs "/tmp/out"
    sampleSchema "h" initialSt rfl rfl

/-! ### Claim C4 -/

/-- Claim C4 counterexample: if writing the schema into the freshly
created temporary file fails with an `OSError`, `tmp_path` has not yet
been assigned, so the `finally` clause does not remove the file:
`_run_generator` returns normally (the error is reported as a
filesystem error) with the temporary file still existing on disk. -/
theorem runGenerator_tmpWriteFail_leaks :
    ((runGenerator { okEnv with tmpWriteOk := false } defaultCmdArgs
        "/tmp/out" sampleSchema "h" initialSt).st.tmpExists = true) ∧
    ((runGenerator { okEnv with tmpWriteOk := false } defaultCmdArgs
        "/tmp/out" sampleSchema "h" initialSt).exc = none) ∧
    ((runGenerator { okEnv with tmpWriteOk := false } defaultCmdArgs
        "/tmp/out" sampleSchema "h" initialSt).success = false) ∧
    ((runGenerator { okEnv with tmpWriteOk := false } defaultCmdArgs
        "/tmp/out" sampleSchema "h" initialSt).reported =
      some (fsReport "disk full")) := by
  decide

/-- Claim C4 (amended): provided the schema is actually written into the
temporary file (serialization succeeds and the write does not fail), the
temporary file no longer exists immediately after `_run_generator`
returns, on every outcome — success, non-zero exit, timeout, later
filesystem errors, and exceptions propagating out. -/
theorem runGenerator_tmp_removed :
    ∀ env args dir schema hash st t, st.tmpExists = false →
      serJ false (.obj schema) = some t → env.tmpWriteOk = true →
      (runGenerator env args dir schema hash st).st.tmpExists = false := by
  intro env args dir schema hash st t h0 hser htw
  cases hpp : env.parentExists && !env.parentWritable with
  | true => simp [runGenerator, hpp, h0]
  | false =>
  cases htc : env.tmpCreateOk with
  | false => simp [runGenerator, hpp, htc, h0]
  | true =>
  cases hro : env.runOutcome with
  | exitNonzero s => simp [runGenerator, hpp, htc, hser, htw, hro]
  | timedOut => simp [runGenerator, hpp, htc, hser, htw, hro]
  | execFail => simp [runGenerator, hpp, htc, hser, htw, hro]
  | exit0 =>
  cases hmk : env.makedirsOk with
  | false => simp [runGenerator, hpp, htc, hser, htw, hro, hmk]
  | true =>
  cases hmo : env.markerOpenOk with
  | false => simp [runGenerator, hpp, htc, hser, htw, hro, hmk, hmo]
  | true =>
  cases hmw : env.markerWriteOk with
  | false => simp [runGenerator, hpp, htc, hser, htw, hro, hmk, hmo, hmw]
  | true => simp [runGenerator, hpp, htc, hser, htw, hro, hmk, hmo, hmw]

/-- Witness for the amended claim C4, on the all-success path. -/
theorem runGenerator_tmp_removed_witness :
    (runGenerator okEnv defaultCmdArgs "/tmp/out" sampleSchema "h"
        initialSt).st.tmpExists = false :=
  runGenerator_tmp_removed okEnv defaultCmdArgs "/tmp/out" sampleSchema "h"
    initialSt sampleTemp.data rfl (by rfl) rfl

/-! ### Claim C1 -/

/-- Helper: when the invocation reaches the changed-schema branch,
`_generate_client` returns what `_run_generator` leaves behind. -/
theorem generateClient_changed_eq (env : Env) (cfg : Cfg) (st : St)
    (c : String)
    (hcfg : (!(truthy cfg.api) || !(truthy cfg.outputDir)) = false)
    (himp : importString env.importBehavior = .ok ())
    (hacc : env.hasAccessor = true)
    (hval : validateSchema env.schema = .ok ())
    (hd : dumps true env.schema = some c)
    (hch : isSchemaChanged (sha256Hex c) st.marker env.markerReadOk = true) :
    generateClient env cfg st =
      (match (runGenerator env (cfg.cmdArgs.getD defaultCmdArgs)
          (cfg.outputDir.getD "") env.schema (sha256Hex c) st).exc with
       | some e =>
         ((runGenerator env (cfg.cmdArgs.getD defaultCmdArgs)
            (cfg.outputDir.getD "") env.schema (sha256Hex c) st).st,
          handleTop e)
       | none =>
         ((runGenerator env (cfg.cmdArgs.getD defaultCmdArgs)
            (cfg.outputDir.getD "") env.schema (sha256Hex c) st).st,
          if (runGenerator env (cfg.cmdArgs.getD defaultCmdArgs)
              (cfg.outputDir.getD "") env.schema (sha256Hex c) st).success
          then .generated
          else .generatorError
            ((runGenerator env (cfg.cmdArgs.getD defaultCmdArgs)
              (cfg.outputDir.getD "") env.schema
              (sha256Hex c) st).reported.getD ""))) := by
  unfold generateClient
  simp [hcfg, himp, hacc, hval, hd, hch]

/-- Claim C1 (amended): the digest marker can change in only two ways.
On the full success path (generator exited 0) it receives the new
digest of the canonical serialization; and when the generator exited 0
but writing the marker file itself fails with a filesystem error, the
marker is left truncated to the empty string (because `open(...,"w")`
truncates before the failed `write`), the run being reported as a
filesystem-error failure.  On every other path — non-zero exit,
timeout, earlier filesystem error, resolution/validation/serialization
failure, or skipped generation — the marker's prior content and its
existence are unchanged. -/
theorem generateClient_marker_cases :
    ∀ env cfg st,
      (generateClient env cfg st).1.marker = st.marker ∨
      ((generateClient env cfg st).2 = .generated ∧
        env.runOutcome = .exit0 ∧
        ∃ c, dumps true env.schema = some c ∧
          (generateClient env cfg st).1.marker = some (sha256Hex c)) ∨
      ((generateClient env cfg st).2 = .generatorError (fsReport env.osText) ∧
        env.markerWriteOk = false ∧ env.runOutcome = .exit0 ∧
        (generateClient env cfg st).1.marker = some "") := by
  intro env cfg st
  cases hcfg : (!(truthy cfg.api) || !(truthy cfg.outputDir)) with
  | true => left; simp [generateClient, hcfg]
  | false =>
  cases himp : importString env.importBehavior with
  | error e => left; simp [generateClient, hcfg, himp]
  | ok u =>
  cases u
  cases hacc : env.hasAccessor with
  | false => left; simp [generateClient, hcfg, himp, hacc]
  | true =>
  cases hval : validateSchema env.schema with
  | error e => left; simp [generateClient, hcfg, himp, hacc, hval]
  | ok u =>
  cases u
  cases hd : dumps true env.schema with
  | none => left; simp [generateClient, hcfg, himp, hacc, hval, hd]
  | some c =>
  cases hch : isSchemaChanged (sha256Hex c) st.marker env.markerReadOk with
  | false => left; simp [generateClient, hcfg, himp, hacc, hval, hd, hch]
  | true =>
    have heq := generateClient_changed_eq env cfg st c hcfg himp hacc hval hd hch
    rcases runGenerator_marker_cases env (cfg.cmdArgs.getD defaultCmdArgs)
        (cfg.outputDir.getD "") env.schema (sha256Hex c) st with
      h1 | ⟨hm, hexc, hsucc, hro⟩ | ⟨hm, hexc, hsucc, hrep, hmw, hro⟩
    · left
      rw [heq]
      cases hexc : (runGenerator env (cfg.cmdArgs.getD defaultCmdArgs)
          (cfg.outputDir.getD "") env.schema (sha256Hex c) st).exc with
      | none => simpa using h1
      | some e => simpa using h1
    · right; left
      rw [heq, hexc]
      exact ⟨by simp [hsucc], hro, c, rfl, by simpa using hm⟩
    · right; right
      rw [heq, hexc]
      refine ⟨by simp [hsucc, hrep], hmw, hro, by simpa using hm⟩

/-- Claim C1 counterexample: the generator exits 0 but writing the
marker file fails after `open(hash_file, "w")` has truncated it — a
failure path (reported as a filesystem error, the method returning
normally) on which the marker's previous content `"OLD"` is destroyed.
(The stored marker is unreadable in this run, so the schema counts as
changed and generation proceeds.) -/
theorem generateClient_markerWriteFail_truncates :
    ((generateClient
        { okEnv with markerReadOk := false, markerWriteOk := false }
        sampleCfg { initialSt with marker := some "OLD" }).1.marker =
      some "") ∧
    ((generateClient
        { okEnv with markerReadOk := false, markerWriteOk := false }
        sampleCfg { initialSt with marker := some "OLD" }).1.marker ≠
      some "OLD") ∧
    ((generateClient
        { okEnv with markerReadOk := false, markerWriteOk := false }
        sampleCfg { initialSt with marker := some "OLD" }).2 =
      .generatorError
        "File system error during generation: disk full") := by
  decide

/-! ### Claim C6 -/

/-- Claim C6: `_validate_schema` fails with a `SchemaValidationError`
naming the missing keys when any of `openapi`, `info`, `paths` is
absent, and with the `info`/`title` message when `info` is not a dict
containing `title`; and any such rejection makes `_generate_client`
return with the state untouched — before any temporary file is created
and before any process is spawned. -/
theorem validateSchema_rejects_before_spawn :
    (∀ schema, missingFields schema ≠ [] →
      validateSchema schema =
        .error (.schemaValidationError (missingMsg (missingFields schema)))) ∧
    (∀ schema, missingFields schema = [] → infoHasTitle schema = false →
      validateSchema schema = .error (.schemaValidationError titleMsg)) ∧
    (∀ env cfg st m, truthy cfg.api = true → truthy cfg.outputDir = true →
      importString env.importBehavior = .ok () → env.hasAccessor = true →
      validateSchema env.schema = .error (.schemaValidationError m) →
      generateClient env cfg st = (st, .caught m)) := by
  refine ⟨?_, ?_, ?_⟩
  · intro schema h
    unfold validateSchema
    cases hm : missingFields schema with
    | nil => exact absurd hm h
    | cons a l => simp [hm]
  · intro schema h1 h2
    unfold validateSchema
    rw [h1]
    simp [h2]
  · intro env cfg st m h1 h2 h3 h4 h5
    unfold generateClient
    simp [h1, h2, h3, h4, h5, handleTop]

/-- Witness for claim C6: the empty schema is rejected naming all three
required fields, with the state unchanged. -/
theorem validateSchema_rejects_before_spawn_witness :
    generateClient { okEnv with schema := [] } sampleCfg initialSt =
      (initialSt,
       .caught
         "Invalid OpenAPI schema: missing required fields: openapi, info, paths") :=
  validateSchema_rejects_before_spawn.2.2 { okEnv with schema := [] }
    sampleCfg initialSt
    "Invalid OpenAPI schema: missing required fields: openapi, info, paths"
    rfl rfl rfl rfl rfl
/-! ### The success run-through and the unchanged-schema skip -/

/-- Helper: a nonempty configured string setting is truthy. -/
theorem truthy_some_ne {s : String} (h : s ≠ "") : truthy (some s) = true := by
  cases he : s.isEmpty
  · show (!s.isEmpty) = true
    rw [he]
    rfl
  · exact absurd ((String.isEmpty_iff s).mp he) h

/-- Helper: when the recomputed digest matches the stored marker,
`_generate_client` skips generation and returns the state untouched. -/
theorem generateClient_unchanged_eq (env : Env) (cfg : Cfg) (st : St)
    (c : String)
    (hcfg : (!(truthy cfg.api) || !(truthy cfg.outputDir)) = false)
    (himp : importString env.importBehavior = .ok ())
    (hacc : env.hasAccessor = true)
    (hval : validateSchema env.schema = .ok ())
    (hd : dumps true env.schema = some c)
    (hch : isSchemaChanged (sha256Hex c) st.marker env.markerReadOk = false) :
    generateClient env cfg st = (st, .skippedUnchanged) := by
  unfold generateClient
  simp [hcfg, himp, hacc, hval, hd, hch]

/-- Helper: the full success run of `_generate_client` — a configured
locator and output directory, successful resolution, an accessor that
yields a valid serializable schema, no stored marker, and an external
world in which every call succeeds.  The generator is spawned with
exactly `["npx", "openapi-generator-cli"] ++ cmd_args ++
["-o", dir, "-i", tmp]`, the temporary file received the insertion-order
JSON text and was removed again, and the marker now holds the SHA-256
hex digest of the key-sorted canonical serialization. -/
theorem generateClient_run_spec (env : Env) (cfg : Cfg) (st : St)
    (api dir c t : String)
    (hapi : cfg.api = some api) (hapine : api ≠ "")
    (hdir : cfg.outputDir = some dir) (hdirne : dir ≠ "")
    (himp : env.importBehavior = .resolved) (hacc : env.hasAccessor = true)
    (hval : validateSchema env.schema = .ok ())
    (hc : dumps true env.schema = some c)
    (ht : dumps false env.schema = some t)
    (hmark : st.marker = none)
    (hpw : env.parentWritable = true) (htc : env.tmpCreateOk = true)
    (htw : env.tmpWriteOk = true) (hro : env.runOutcome = .exit0)
    (hmk : env.makedirsOk = true) (hmo : env.markerOpenOk = true)
    (hmw : env.markerWriteOk = true) :
    generateClient env cfg st =
      ({ marker := some (sha256Hex c), tmpExists := false,
         tmpEverCreated := true, tmpContent := some t,
         spawned := st.spawned ++
           [["npx", "openapi-generator-cli"] ++ cfg.cmdArgs.getD defaultCmdArgs ++
            ["-o", dir, "-i", env.tmpName]] },
       .generated) := by
  have hcfg : (!(truthy cfg.api) || !(truthy cfg.outputDir)) = false := by
    rw [hapi, hdir, truthy_some_ne hapine, truthy_some_ne hdirne]
    rfl
  have hch : isSchemaChanged (sha256Hex c) st.marker env.markerReadOk = true := by
    rw [hmark]
    rfl
  have himp2 : importString env.importBehavior = .ok () := by
    rw [himp]
    rfl
  have hserf : serJ false (.obj env.schema) = some t.data := by
    unfold dumps at ht
    cases hs : serJ false (.obj env.schema) with
    | none =>
      rw [hs] at ht
      have h2 : (none : Option String) = some t := ht
      exact absurd h2 (by simp)
    | some l =>
      rw [hs] at ht
      have h2 : some (⟨l⟩ : String) = some t := ht
      have hlt : (⟨l⟩ : String) = t := Option.some.inj h2
      rw [← hlt]
  have hgd : cfg.outputDir.getD "" = dir := by rw [hdir]; rfl
  have heq := generateClient_changed_eq env cfg st c hcfg himp2 hacc hval hc hch
  have hrun := runGenerator_success_spec env (cfg.cmdArgs.getD defaultCmdArgs)
    (cfg.outputDir.getD "") env.schema (sha256Hex c) st t.data
    hpw htc htw hserf hro hmk hmo hmw
  rw [heq, hrun, hgd]
  rfl

/-! ### Claim C7 -/

/-- Claim C7: for a valid serializable schema with no existing marker
file, the generator is invoked with the command line
`["npx", "openapi-generator-cli"]` followed by the configured argument
list followed by `["-o", output_dir, "-i", temp_file]`, the temp file
holding the schema's JSON text; and on exit 0 the marker file is
created containing exactly the SHA-256 hex digest of the canonical
key-sorted JSON serialization of the schema. -/
theorem generateClient_success_run (env : Env) (cfg : Cfg) (st : St)
    (api dir c t : String)
    (hapi : cfg.api = some api) (hapine : api ≠ "")
    (hdir : cfg.outputDir = some dir) (hdirne : dir ≠ "")
    (himp : env.importBehavior = .resolved) (hacc : env.hasAccessor = true)
    (hval : validateSchema env.schema = .ok ())
    (hc : dumps true env.schema = some c)
    (ht : dumps false env.schema = some t)
    (hmark : st.marker = none)
    (hpw : env.parentWritable = true) (htc : env.tmpCreateOk = true)
    (htw : env.tmpWriteOk = true) (hro : env.runOutcome = .exit0)
    (hmk : env.makedirsOk = true) (hmo : env.markerOpenOk = true)
    (hmw : env.markerWriteOk = true) :
    generateClient env cfg st =
      ({ marker := some (sha256Hex c), tmpExists := false,
         tmpEverCreated := true, tmpContent := some t,
         spawned := st.spawned ++
           [["npx", "openapi-generator-cli"] ++ cfg.cmdArgs.getD defaultCmdArgs ++
            ["-o", dir, "-i", env.tmpName]] },
       .generated) :=
  generateClient_run_spec env cfg st api dir c t hapi hapine hdir hdirne
    himp hacc hval hc ht hmark hpw htc htw hro hmk hmo hmw

/-- Witness for claim C7, at the spec's example schema. -/
theorem generateClient_success_run_witness :
    generateClient okEnv sampleCfg initialSt =
      ({ marker := some (sha256Hex sampleCanon), tmpExists := false,
         tmpEverCreated := true, tmpContent := some sampleTemp,
         spawned := [sampleCmd] },
       .generated) :=
  generateClient_success_run okEnv sampleCfg initialSt "myapp.api" "/tmp/out"
    sampleCanon sampleTemp rfl (by decide) rfl (by decide) rfl rfl (by rfl)
    (by rfl) (by rfl) rfl rfl rfl rfl rfl rfl rfl rfl

/-! ### Claim C8 -/

/-- Claim C8: running `_generate_client` twice in succession with the
same schema, the first run fully succeeding, invokes the external
generator exactly once — the second run recomputes the digest, finds it
equal to the marker written by the first run, skips the subprocess and
leaves the whole state (marker included) unchanged. -/
theorem generateClient_idempotent (env1 env2 : Env) (cfg : Cfg) (st : St)
    (api dir c t : String)
    (hapi : cfg.api = some api) (hapine : api ≠ "")
    (hdir : cfg.outputDir = some dir) (hdirne : dir ≠ "")
    (himp : env1.importBehavior = .resolved) (hacc : env1.hasAccessor = true)
    (hval : validateSchema env1.schema = .ok ())
    (hc : dumps true env1.schema = some c)
    (ht : dumps false env1.schema = some t)
    (hmark : st.marker = none)
    (hpw : env1.parentWritable = true) (htc : env1.tmpCreateOk = true)
    (htw : env1.tmpWriteOk = true) (hro : env1.runOutcome = .exit0)
    (hmk : env1.makedirsOk = true) (hmo : env1.markerOpenOk = true)
    (hmw : env1.markerWriteOk = true)
    (himp2 : env2.importBehavior = .resolved) (hacc2 : env2.hasAccessor = true)
    (hsch2 : env2.schema = env1.schema) (hread2 : env2.markerReadOk = true) :
    generateClient env2 cfg (generateClient env1 cfg st).1 =
      ((generateClient env1 cfg st).1, .skippedUnchanged) ∧
    (generateClient env1 cfg st).1.spawned =
      st.spawned ++
        [["npx", "openapi-generator-cli"] ++ cfg.cmdArgs.getD defaultCmdArgs ++
         ["-o", dir, "-i", env1.tmpName]] := by
  have h1 := generateClient_run_spec env1 cfg st api dir c t hapi hapine hdir
    hdirne himp hacc hval hc ht hmark hpw htc htw hro hmk hmo hmw
  have hcfg : (!(truthy cfg.api) || !(truthy cfg.outputDir)) = false := by
    rw [hapi, hdir, truthy_some_ne hapine, truthy_some_ne hdirne]
    rfl
  have himp2e : importString env2.importBehavior = .ok () := by
    rw [himp2]
    rfl
  have hch2 :
      isSchemaChanged (sha256Hex c) (generateClient env1 cfg st).1.marker
        env2.markerReadOk = false := by
    rw [h1, hread2]
    simp [isSchemaChanged, pyStrip_sha256Hex]
  have h2 := generateClient_unchanged_eq env2 cfg (generateClient env1 cfg st).1
    c hcfg himp2e hacc2 (by rw [hsch2]; exact hval) (by rw [hsch2]; exact hc)
    hch2
  exact ⟨h2, by rw [h1]⟩

/-- Witness for claim C8: two all-success runs at the example schema,
the second of which is a no-op. -/
theorem generateClient_idempotent_witness :
    generateClient okEnv sampleCfg (generateClient okEnv sampleCfg initialSt).1 =
      ((generateClient okEnv sampleCfg initialSt).1, .skippedUnchanged) ∧
    (generateClient okEnv sampleCfg initialSt).1.spawned = [sampleCmd] :=
  generateClient_idempotent okEnv okEnv sampleCfg initialSt "myapp.api"
    "/tmp/out" sampleCanon sampleTemp rfl (by decide) rfl (by decide) rfl rfl
    (by rfl) (by rfl) (by rfl) rfl rfl rfl rfl rfl rfl rfl rfl rfl rfl rfl rfl
/-! ### Claim C9 -/

theorem flatMap_replicate_a (n : Nat) :
    (List.replicate n 'a').flatMap escChar = List.replicate n 'a' := by
  induction n with
  | zero => rfl
  | succ n ih =>
    rw [List.replicate_succ, List.flatMap_cons, ih]
    rfl

theorem dumps_famN (n : Nat) : dumps true (famN n) = some (cText n) := by
  have ha : escChar 'a' = ['a'] := by decide
  unfold dumps famN cText
  simp [serJ, serPairs, List.insertionSort, List.orderedInsert, renderItem,
    joinComma, escString, ha, flatMap_replicate_a]

theorem cText_length (n : Nat) : (cText n).length = n + 9 := by
  show (cText n).data.length = n + 9
  simp [cText]

theorem hexFixed_length (k n : Nat) : (hexFixed k n).length = k := by
  induction k generalizing n with
  | zero => rfl
  | succ k ih => simp [hexFixed, ih]

theorem foldl_digest_bound :
    ∀ (l : List Nat) (acc B : Nat), acc < B →
      l.foldl (fun a w => a * M32 + w % M32) acc < B * M32 ^ l.length := by
  intro l
  induction l with
  | nil =>
    intro acc B h
    simpa using h
  | cons w ws ih =>
    intro acc B h
    have hw : w % M32 < M32 := Nat.mod_lt _ (by norm_num [M32])
    have hstep : acc * M32 + w % M32 < B * M32 := by
      have h1 : acc + 1 ≤ B := h
      calc acc * M32 + w % M32 < acc * M32 + M32 := by omega
        _ = (acc + 1) * M32 := by ring
        _ ≤ B * M32 := Nat.mul_le_mul_right _ h1
    have hrec := ih (acc * M32 + w % M32) (B * M32) hstep
    calc (w :: ws).foldl (fun a w => a * M32 + w % M32) acc
        = ws.foldl (fun a w => a * M32 + w % M32) (acc * M32 + w % M32) := rfl
      _ < B * M32 * M32 ^ ws.length := hrec
      _ = B * M32 ^ (w :: ws).length := by
          rw [List.length_cons, pow_succ]
          ring

/-- Every SHA-256 digest, read as a number, is below `2 ^ 256`: the
digest space is finite. -/
theorem sha256Nat_lt (msg : List Nat) : sha256Nat msg < 2 ^ 256 := by
  have h0 : (sha256H msg).a % M32 < M32 := Nat.mod_lt _ (by norm_num [M32])
  have h := foldl_digest_bound
    [(sha256H msg).b, (sha256H msg).c, (sha256H msg).d, (sha256H msg).e,
     (sha256H msg).f, (sha256H msg).g, (sha256H msg).h]
    ((sha256H msg).a % M32) M32 h0
  have hM : M32 * M32 ^ (7 : Nat) = 2 ^ 256 := by norm_num [M32]
  unfold sha256Nat
  calc _ < M32 * M32 ^ (7 : Nat) := h
    _ = 2 ^ 256 := hM

/-- Claim C9 counterexample (negation of the claim): it is *not* the
case that every two schema snapshots with different canonical key-sorted
serializations have different SHA-256 hex digests — the digests range
over a finite set while the serializations do not, so some two distinct
serializations collide. -/
theorem sha256Hex_not_injective :
    ¬ (∀ (s1 s2 : List (String × Json)) (c1 c2 : String),
        dumps true s1 = some c1 → dumps true s2 = some c2 →
        c1 ≠ c2 → sha256Hex c1 ≠ sha256Hex c2) := by
  intro H
  let f : Nat → Fin (2 ^ 256) :=
    fun n => ⟨sha256Nat (utf8Bytes (cText n)), sha256Nat_lt _⟩
  obtain ⟨n, m, hnm, hfeq⟩ := Finite.exists_ne_map_eq_of_infinite f
  have hc : cText n ≠ cText m := by
    intro h
    apply hnm
    have hlen := congrArg String.length h
    rw [cText_length, cText_length] at hlen
    omega
  have hval : sha256Nat (utf8Bytes (cText n)) =
      sha256Nat (utf8Bytes (cText m)) := congrArg Fin.val hfeq
  have hhex : sha256Hex (cText n) = sha256Hex (cText m) := by
    unfold sha256Hex
    rw [hval]
  exact H (famN n) (famN m) (cText n) (cText m) (dumps_famN n) (dumps_famN m)
    hc hhex

/-- Claim C9 (amended): the digest is a deterministic function of the
canonical serialization — equal canonical texts always produce equal
digests — and every digest is a 64-hex-character string whose value is
below `2 ^ 256`; because that digest space is finite, distinctness of
the digests of *all* pairs of distinct serializations cannot hold
unconditionally (see the counterexample), and is only a computational
collision-resistance assumption about SHA-256. -/
theorem sha256Hex_deterministic_bounded :
    (∀ (s1 s2 : List (String × Json)) (c1 c2 : String),
      dumps true s1 = some c1 → dumps true s2 = some c2 → c1 = c2 →
      sha256Hex c1 = sha256Hex c2) ∧
    (∀ text : String,
      (sha256Hex text).length = 64 ∧ sha256Nat (utf8Bytes text) < 2 ^ 256) := by
  constructor
  · intro s1 s2 c1 c2 h1 h2 h
    rw [h]
  · intro text
    refine ⟨?_, sha256Nat_lt _⟩
    show (sha256Hex text).data.length = 64
    have : (sha256Hex text).data = hexFixed 64 (sha256Nat (utf8Bytes text)) :=
      rfl
    rw [this, hexFixed_length]

/-- Witness for the amended claim C9, at the example schema's canonical
serialization. -/
theorem sha256Hex_deterministic_bounded_witness :
    sha256Hex sampleCanon = sha256Hex sampleCanon ∧
    (sha256Hex sampleCanon).length = 64 :=
  ⟨sha256Hex_deterministic_bounded.1 sampleSchema sampleSchema sampleCanon
      sampleCanon (by rfl) (by rfl) rfl,
   (sha256Hex_deterministic_bounded.2 sampleCanon).1⟩
/-! ### Claim C10 -/

mutual
/-- Every value denotes the same JSON value as its deep key-sort. -/
theorem jequiv_deepSort : ∀ j : Json, JEquiv j (deepSort j)
  | .null => .null
  | .bool b => .bool b
  | .num n => .num n
  | .str s => .str s
  | .foreign t => .foreign t
  | .arr xs => .arr (jequivL_deepSort xs)
  | .obj kvs =>
    .obj (jequivKV_deepSort kvs)
      (List.perm_insertionSort keyLe (deepSortKVs kvs)).symm

theorem jequivL_deepSort : ∀ xs : List Json, JEquivL xs (deepSortArr xs)
  | [] => .nil
  | x :: xs => .cons (jequiv_deepSort x) (jequivL_deepSort xs)

theorem jequivKV_deepSort :
    ∀ kvs : List (String × Json), JEquivKV kvs (deepSortKVs kvs)
  | [] => .nil
  | (_, v) :: rest => .cons (jequiv_deepSort v) (jequivKV_deepSort rest)
end

/-- Rendering the items of a dictionary commutes with `orderedInsert`:
inserting an item by key and then rendering equals rendering and then
inserting the rendered item (the comparison looks only at keys). -/
theorem serPairs_orderedInsert (sk : Bool) (x : String × Json) :
    ∀ L : List (String × Json),
      serPairs sk (List.orderedInsert keyLe x L) =
        match serJ sk x.2, serPairs sk L with
        | some c, some ps => some (List.orderedInsert pairLe (x.1, c) ps)
        | _, _ => none := by
  intro L
  induction L with
  | nil =>
    cases hx : serJ sk x.2 <;>
      simp [List.orderedInsert, serPairs, hx]
  | cons y ys ih =>
    by_cases hxy : keyLe x y
    · have hb : strLeB x.1 y.1 = true := hxy
      cases hx : serJ sk x.2 <;> cases hy : serJ sk y.2 <;>
        cases hys : serPairs sk ys <;>
        simp [List.orderedInsert, serPairs, hx, hy, hys, pairLe, keyLe, hb]
    · have hb : strLeB x.1 y.1 = false := by
        cases h : strLeB x.1 y.1
        · rfl
        · exact absurd h hxy
      cases hx : serJ sk x.2 <;> cases hy : serJ sk y.2 <;>
        cases hys : serPairs sk ys <;>
        simp [List.orderedInsert, serPairs, hx, hy, hys, pairLe, keyLe, hb,
          ih]
/-- Rendering the items of a dictionary commutes with sorting by key:
rendering the key-sorted items equals sorting the rendered items. -/
theorem serPairs_insertionSort (sk : Bool) :
    ∀ L : List (String × Json),
      serPairs sk (List.insertionSort keyLe L) =
        (serPairs sk L).map (List.insertionSort pairLe) := by
  intro L
  induction L with
  | nil => rfl
  | cons x xs ih =>
    rw [List.insertionSort, serPairs_orderedInsert, ih]
    cases hx : serJ sk x.2 <;> cases hxs : serPairs sk xs <;>
      simp [serPairs, hx, hxs, List.insertionSort]

mutual
/-- The canonical (`sort_keys=True`) serialization of a value is the
plain insertion-order serialization of its deep key-sort. -/
theorem serJ_true_deepSort :
    ∀ j : Json, serJ true j = serJ false (deepSort j)
  | .null => rfl
  | .bool b => by cases b <;> rfl
  | .num n => rfl
  | .str s => rfl
  | .foreign t => rfl
  | .arr xs => by
    have h := serArr_true_deepSort xs
    show (match serArr true xs with
      | none => none
      | some parts => some ('[' :: joinComma parts ++ [']'])) = _
    rw [h]
    rfl
  | .obj kvs => by
    have h1 := serPairs_insertionSort false (deepSortKVs kvs)
    have h2 := serPairs_true_deepSort kvs
    show (match serPairs true kvs with
      | none => none
      | some ps =>
        some ('{' :: joinComma ((List.insertionSort pairLe ps).map renderItem)
          ++ ['}'])) =
      (match serPairs false (List.insertionSort keyLe (deepSortKVs kvs)) with
      | none => none
      | some ps => some ('{' :: joinComma (ps.map renderItem) ++ ['}']))
    rw [h1, ← h2]
    cases hps : serPairs true kvs <;> rfl

theorem serArr_true_deepSort :
    ∀ xs : List Json, serArr true xs = serArr false (deepSortArr xs)
  | [] => rfl
  | x :: xs => by
    show (match serJ true x, serArr true xs with
      | some c, some cs => some (c :: cs)
      | _, _ => none) = _
    rw [serJ_true_deepSort x, serArr_true_deepSort xs]
    rfl

theorem serPairs_true_deepSort :
    ∀ kvs : List (String × Json),
      serPairs true kvs = serPairs false (deepSortKVs kvs)
  | [] => rfl
  | (k, v) :: rest => by
    show (match serJ true v, serPairs true rest with
      | some c, some cs => some ((k, c) :: cs)
      | _, _ => none) = _
    rw [serJ_true_deepSort v, serPairs_true_deepSort rest]
    rfl
end
/-- Claim C10: the JSON text written to the temporary input file handed
to the generator is serialized without key sorting (the schema
dictionary's insertion order), while the persisted digest is computed
over the key-sorted canonical serialization; the two texts denote the
same JSON value — the canonical text is exactly the insertion-order
serialization of the schema's deep key-sort, which is `JEquiv` to the
schema itself — and for some schema snapshot (`cexOrd`) the temp-file
text is not byte-identical to the canonical text. -/
theorem tempUnsorted_digestSorted :
    (∀ (env : Env) (cfg : Cfg) (st : St) (api dir c t : String),
      cfg.api = some api → api ≠ "" → cfg.outputDir = some dir → dir ≠ "" →
      env.importBehavior = .resolved → env.hasAccessor = true →
      validateSchema env.schema = .ok () →
      dumps true env.schema = some c → dumps false env.schema = some t →
      st.marker = none → env.parentWritable = true → env.tmpCreateOk = true →
      env.tmpWriteOk = true → env.runOutcome = .exit0 →
      env.makedirsOk = true → env.markerOpenOk = true →
      env.markerWriteOk = true →
      (generateClient env cfg st).1.tmpContent = some t ∧
      (generateClient env cfg st).1.marker = some (sha256Hex c)) ∧
    (∀ s : List (String × Json),
      dumps true s =
        (serJ false (deepSort (.obj s))).map fun cs => (⟨cs⟩ : String)) ∧
    (∀ s : List (String × Json), JEquiv (.obj s) (deepSort (.obj s))) ∧
    dumps false cexOrd ≠ dumps true cexOrd := by
  refine ⟨?_, ?_, ?_, by decide⟩
  · intro env cfg st api dir c t hapi hapine hdir hdirne himp hacc hval hc ht
      hmark hpw htc htw hro hmk hmo hmw
    have h := generateClient_run_spec env cfg st api dir c t hapi hapine hdir
      hdirne himp hacc hval hc ht hmark hpw htc htw hro hmk hmo hmw
    rw [h]
    exact ⟨rfl, rfl⟩
  · intro s
    unfold dumps
    rw [serJ_true_deepSort]
  · intro s
    exact jequiv_deepSort _

/-- Witness for claim C10, at the example schema: the temp file got the
insertion-order text, the marker the digest of the canonical text. -/
theorem tempUnsorted_digestSorted_witness :
    (generateClient okEnv sampleCfg initialSt).1.tmpContent =
      some sampleTemp ∧
    (generateClient okEnv sampleCfg initialSt).1.marker =
      some (sha256Hex sampleCanon) :=
  tempUnsorted_digestSorted.1 okEnv sampleCfg initialSt "myapp.api" "/tmp/out"
    sampleCanon sampleTemp rfl (by decide) rfl (by decide) rfl rfl (by rfl)
    (by rfl) (by rfl) rfl rfl rfl rfl rfl rfl rfl rfl
end NinjaTs
